import Mathlib

/-!
Shallow embedding of the picolo Dialogflow proxy (Go) and verification of
its request-normalization and response-extraction logic.

The repository contains two variants of the same one-handler service:
* the ES variant (`main.go`, Dialogflow V2): session path without an agent
  segment, session id generated when absent;
* the CX variant (second file of `part_003`, Dialogflow CX v3): session path
  with an agent segment, session id required, response text extracted from
  the first text-typed response message.

HTTP, JSON decoding and the upstream RPC are modelled explicitly: a request
is a method plus an optional decoded body (decoding failure is `none`); the
upstream client is a function from the constructed upstream request to
`Except` (RPC error) of an optional query result (`none` models a nil
`QueryResult` pointer).  Random session-id generation (`uuid.NewString()`)
is modelled by passing the freshly generated string as an argument.
-/

namespace Picolo

/-- Decoded JSON request body (`DetectIntentRequest` in both variants):
four string fields `message`, `agentId`, `sessionId`, `languageCode`. -/
structure DetectIntentRequest where
  message : String
  agentId : String
  sessionId : String
  languageCode : String
deriving DecidableEq, Repr

/-- A JSON object for the request body, field by field; `none` is an absent
field.  Mirrors what `encoding/json` sees before decoding. -/
structure JsonRequest where
  message : Option String
  agentId : Option String
  sessionId : Option String
  languageCode : Option String
deriving DecidableEq, Repr

/-- Go's `encoding/json` decoding into a struct of `string` fields: an
absent field decodes to the zero value `""`. -/
def decodeRequest (j : JsonRequest) : DetectIntentRequest :=
  ⟨j.message.getD "", j.agentId.getD "", j.sessionId.getD "", j.languageCode.getD ""⟩

/-- Replace the `sessionId` field of a JSON object. -/
def JsonRequest.withSession (j : JsonRequest) (s : Option String) : JsonRequest :=
  ⟨j.message, j.agentId, s, j.languageCode⟩

/-! ## ES variant (`main.go`) -/

/-- ES `config` (loaded from environment variables in `loadConfig`). -/
structure ESConfig where
  projectID : String
  locationID : String
  allowedOrigin : String
  port : String
deriving DecidableEq, Repr

/-- ES session path, `main.go` line 170:
`fmt.Sprintf("projects/%s/locations/%s/agent/sessions/%s", ProjectID, LocationID, sessionID)`. -/
def esSessionPath (cfg : ESConfig) (sessionID : String) : String :=
  "projects/" ++ cfg.projectID ++ "/locations/" ++ cfg.locationID
    ++ "/agent/sessions/" ++ sessionID

/-- The text input of the ES upstream request (`dialogflowpb.TextInput`). -/
structure ESTextInput where
  text : String
  languageCode : String
deriving DecidableEq, Repr

/-- The ES upstream request (`dialogflowpb.DetectIntentRequest`): session
path plus text query input. -/
structure ESDetectIntentRequest where
  session : String
  queryInput : ESTextInput
deriving DecidableEq, Repr

/-- `dialogflowpb.Intent` as read by the handler: only `DisplayName` is
used. -/
structure ESIntent where
  displayName : String
deriving DecidableEq, Repr

/-- ES `QueryResult` as read by the handler (`main.go` lines 203-217).
`M` and `P` stand in for `dialogflowpb.ResponseMessage` and
`dialogflowpb.Struct`, which the handler copies without inspecting.
`intent`/`parameters` are `Option` because the proto pointers may be nil. -/
structure ESQueryResult (M P : Type) where
  fulfillmentText : String
  fulfillmentMessages : List M
  intent : Option ESIntent
  parameters : Option P

/-- ES `DetectIntentResponse` sent back to the client. -/
structure ESApiResponse (M P : Type) where
  fulfillmentText : String
  fulfillmentMessages : List M
  intent : String
  parameters : Option P
  sessionId : String

/-- Outcome of one ES request: HTTP status, JSON body on success, and the
upstream request actually sent (`none` when no upstream call was made). -/
structure ESHandlerResult (M P : Type) where
  status : Nat
  body : Option (ESApiResponse M P)
  upstreamReq : Option ESDetectIntentRequest

/-- ES normalization steps of `detectIntentHandler` (`main.go` lines
156-189): default the session id to the freshly generated uuid, default the
language code to `"en-US"`, build the session path and the upstream
request. -/
def esNormalize (cfg : ESConfig) (req : DetectIntentRequest) (freshUuid : String) :
    ESDetectIntentRequest :=
  let sessionID := if req.sessionId = "" then freshUuid else req.sessionId
  let langCode := if req.languageCode = "" then "en-US" else req.languageCode
  ⟨esSessionPath cfg sessionID, ⟨req.message, langCode⟩⟩

/-- ES `detectIntentHandler` (`main.go` lines 134-227).  `decoded` is the
result of JSON-decoding the body (`none` on decode error), `freshUuid` the
string `uuid.NewString()` would return, `upstream` the sessions client. -/
def esDetectIntentHandler {M P : Type} (cfg : ESConfig) (method : String)
    (decoded : Option DetectIntentRequest) (freshUuid : String)
    (upstream : ESDetectIntentRequest → Except String (Option (ESQueryResult M P))) :
    ESHandlerResult M P :=
  if method ≠ "POST" then ⟨405, none, none⟩
  else
    match decoded with
    | none => ⟨400, none, none⟩
    | some req =>
      if req.message = "" ∨ req.agentId = "" then ⟨400, none, none⟩
      else
        let sessionID := if req.sessionId = "" then freshUuid else req.sessionId
        let dialogflowRequest := esNormalize cfg req freshUuid
        match upstream dialogflowRequest with
        | .error _ => ⟨500, none, some dialogflowRequest⟩
        | .ok none => ⟨500, none, some dialogflowRequest⟩
        | .ok (some result) =>
          ⟨200,
           some ⟨result.fulfillmentText, result.fulfillmentMessages,
                 (result.intent.map ESIntent.displayName).getD "",
                 result.parameters, sessionID⟩,
           some dialogflowRequest⟩

/-! ## CX variant (second file of `part_003`) -/

/-- CX `config`: like the ES one plus an optional default agent id
(`DEFAULT_DIALOGFLOW_AGENT_ID`). -/
structure CXConfig where
  projectID : String
  locationID : String
  allowedOrigin : String
  port : String
  defaultAgentID : String
deriving DecidableEq, Repr

/-- CX session path, `part_003` lines 407-408:
`fmt.Sprintf("projects/%s/locations/%s/agents/%s/sessions/%s", ...)`. -/
def cxSessionPath (cfg : CXConfig) (agentID sessionID : String) : String :=
  "projects/" ++ cfg.projectID ++ "/locations/" ++ cfg.locationID
    ++ "/agents/" ++ agentID ++ "/sessions/" ++ sessionID

/-- `cxpb.ResponseMessage`: a oneof whose only variant this code inspects
is the text variant (a list of strings); every other variant — and a nil
message pointer — behaves like `other`, on which `GetText()` returns nil. -/
inductive ResponseMessage where
  | text (texts : List String)
  | other
deriving DecidableEq, Repr

/-- `responseMessage.GetText()`: the text payload when the message is the
text variant, otherwise nil. -/
def ResponseMessage.getText : ResponseMessage → Option (List String)
  | .text texts => some texts
  | .other => none

/-- CX `QueryResult` as read by the handler: only `ResponseMessages`. -/
structure CXQueryResult where
  responseMessages : List ResponseMessage
deriving DecidableEq, Repr

/-- The text input of the CX upstream request (`cxpb.TextInput`). -/
structure CXTextInput where
  text : String
deriving DecidableEq, Repr

/-- `cxpb.QueryInput`: text input plus language code. -/
structure CXQueryInput where
  input : CXTextInput
  languageCode : String
deriving DecidableEq, Repr

/-- The CX upstream request (`cxpb.DetectIntentRequest`). -/
structure CXDetectIntentRequest where
  session : String
  queryInput : CXQueryInput
deriving DecidableEq, Repr

/-- CX `DetectIntentResponse` sent back to the client: extracted text plus
the session id used. -/
structure CXApiResponse where
  text : String
  sessionId : String
deriving DecidableEq, Repr

/-- Outcome of one CX request: HTTP status, JSON body on success, and the
upstream request actually sent (`none` when no upstream call was made). -/
structure CXHandlerResult where
  status : Nat
  body : Option CXApiResponse
  upstreamReq : Option CXDetectIntentRequest
deriving DecidableEq, Repr

/-- Response-text extraction of the CX handler (`part_003` lines 450-462):
if the response-messages slice is non-empty and its first element's
`GetText()` is non-nil and that text list is non-empty, take its first
entry; in every other case leave `responseText` as `""`. -/
def extractResponseText (responseMessages : List ResponseMessage) : String :=
  match responseMessages with
  | [] => ""
  | first :: _ =>
    match first.getText with
    | none => ""
    | some texts =>
      match texts with
      | [] => ""
      | t :: _ => t

/-- CX normalization steps of `detectIntentHandler` (`part_003` lines
385-428): default the agent id to the configured default, default the
language code to `"en"`, build the session path and the upstream request. -/
def cxNormalize (cfg : CXConfig) (req : DetectIntentRequest) : CXDetectIntentRequest :=
  let agentID := if req.agentId = "" then cfg.defaultAgentID else req.agentId
  let langCode := if req.languageCode = "" then "en" else req.languageCode
  ⟨cxSessionPath cfg agentID req.sessionId, ⟨⟨req.message⟩, langCode⟩⟩

/-- CX `detectIntentHandler` (`part_003` lines 370-483). -/
def cxDetectIntentHandler (cfg : CXConfig) (method : String)
    (decoded : Option DetectIntentRequest)
    (upstream : CXDetectIntentRequest → Except String (Option CXQueryResult)) :
    CXHandlerResult :=
  if method ≠ "POST" then ⟨405, none, none⟩
  else
    match decoded with
    | none => ⟨400, none, none⟩
    | some req =>
      let agentID := if req.agentId = "" then cfg.defaultAgentID else req.agentId
      if req.message = "" ∨ agentID = "" ∨ req.sessionId = "" then ⟨400, none, none⟩
      else
        let dialogflowRequest := cxNormalize cfg req
        match upstream dialogflowRequest with
        | .error _ => ⟨500, none, some dialogflowRequest⟩
        | .ok none => ⟨500, none, some dialogflowRequest⟩
        | .ok (some queryResult) =>
          ⟨200,
           some ⟨extractResponseText queryResult.responseMessages, req.sessionId⟩,
           some dialogflowRequest⟩

/-! ## Health check -/

/-- An inbound HTTP request as seen by a handler: method and path.  (The
body is irrelevant to the health check.) -/
structure HttpRequest where
  method : String
  path : String
deriving DecidableEq, Repr

/-- `healthCheckHandler` (`main.go` lines 128-131, identically `part_003`
lines 364-367): writes status 200 and body `"OK"`, inspecting nothing of
the request. -/
def healthCheckHandler (_ : HttpRequest) : Nat × String :=
  (200, "OK")

/-! ## Concrete example values (used by witnesses) -/

/-- A small ES configuration. -/
def cfgE : ESConfig := ⟨"pj", "loc", "*", "8080"⟩

/-- A small CX configuration with a non-empty default agent id. -/
def cfgC : CXConfig := ⟨"pj", "loc", "*", "8080", "agdef"⟩

/-- An always-failing upstream client (ES). -/
def uESerr : ESDetectIntentRequest → Except String (Option (ESQueryResult Unit Unit)) :=
  fun _ => Except.error "boom"

/-- An always-failing upstream client (CX). -/
def uCXerr : CXDetectIntentRequest → Except String (Option CXQueryResult) :=
  fun _ => Except.error "boom"

/-- A CX query result whose first response message is text-typed with
texts `["Hello!"]`, followed by another text message. -/
def qrHello : CXQueryResult :=
  ⟨[ResponseMessage.text ["Hello!"], ResponseMessage.text ["later"]]⟩

/-- An upstream client (CX) always answering with `qrHello`. -/
def uCXok : CXDetectIntentRequest → Except String (Option CXQueryResult) :=
  fun _ => Except.ok (some qrHello)

/-- An ES query result with fulfillment text `"Hi there"` and no intent. -/
def esqrEx : ESQueryResult Unit Unit := ⟨"Hi there", [], none, none⟩

/-- An upstream client (ES) always answering with `esqrEx`. -/
def uESok : ESDetectIntentRequest → Except String (Option (ESQueryResult Unit Unit)) :=
  fun _ => Except.ok (some esqrEx)

/-- A fully specified decoded request. -/
def reqFull : DetectIntentRequest := ⟨"hi", "ag", "sess", "fr"⟩

/-- A decoded request with an empty session id. -/
def reqNoSession : DetectIntentRequest := ⟨"hi", "ag", "", ""⟩

/-- A decoded request with an empty agent id. -/
def reqNoAgent : DetectIntentRequest := ⟨"hi", "", "sess", ""⟩

/-- The JSON body `{"message":""}`. -/
def jMsgOnly : JsonRequest := ⟨some "", none, none, none⟩

/-- A JSON body with non-empty message and agent id. -/
def jGood : JsonRequest := ⟨some "hi", some "ag", some "sess", none⟩

/-! ## Unfolding lemmas for the handlers -/

/-- On a POST request with a successfully decoded body, the ES handler is
validation followed by the upstream call on the normalized request. -/
theorem esHandler_post_some {M P : Type} (cfg : ESConfig) (req : DetectIntentRequest)
    (fresh : String)
    (u : ESDetectIntentRequest → Except String (Option (ESQueryResult M P))) :
    esDetectIntentHandler cfg "POST" (some req) fresh u =
      if req.message = "" ∨ req.agentId = "" then ⟨400, none, none⟩
      else
        match u (esNormalize cfg req fresh) with
        | .error _ => ⟨500, none, some (esNormalize cfg req fresh)⟩
        | .ok none => ⟨500, none, some (esNormalize cfg req fresh)⟩
        | .ok (some result) =>
          ⟨200,
           some ⟨result.fulfillmentText, result.fulfillmentMessages,
                 (result.intent.map ESIntent.displayName).getD "",
                 result.parameters,
                 if req.sessionId = "" then fresh else req.sessionId⟩,
           some (esNormalize cfg req fresh)⟩ := rfl

/-- On a POST request with a successfully decoded body, the CX handler is
validation followed by the upstream call on the normalized request. -/
theorem cxHandler_post_some (cfg : CXConfig) (req : DetectIntentRequest)
    (u : CXDetectIntentRequest → Except String (Option CXQueryResult)) :
    cxDetectIntentHandler cfg "POST" (some req) u =
      if req.message = "" ∨ (if req.agentId = "" then cfg.defaultAgentID else req.agentId) = ""
          ∨ req.sessionId = "" then ⟨400, none, none⟩
      else
        match u (cxNormalize cfg req) with
        | .error _ => ⟨500, none, some (cxNormalize cfg req)⟩
        | .ok none => ⟨500, none, some (cxNormalize cfg req)⟩
        | .ok (some queryResult) =>
          ⟨200,
           some ⟨extractResponseText queryResult.responseMessages, req.sessionId⟩,
           some (cxNormalize cfg req)⟩ := rfl

/-- If ES validation fails, the handler answers 400 without upstream call. -/
theorem esHandler_reject {M P : Type} (cfg : ESConfig) (req : DetectIntentRequest)
    (fresh : String)
    (u : ESDetectIntentRequest → Except String (Option (ESQueryResult M P)))
    (h : req.message = "" ∨ req.agentId = "") :
    esDetectIntentHandler cfg "POST" (some req) fresh u = ⟨400, none, none⟩ := by
  rw [esHandler_post_some, if_pos h]

/-- If CX validation fails, the handler answers 400 without upstream call. -/
theorem cxHandler_reject (cfg : CXConfig) (req : DetectIntentRequest)
    (u : CXDetectIntentRequest → Except String (Option CXQueryResult))
    (h : req.message = "" ∨ (if req.agentId = "" then cfg.defaultAgentID else req.agentId) = ""
      ∨ req.sessionId = "") :
    cxDetectIntentHandler cfg "POST" (some req) u = ⟨400, none, none⟩ := by
  rw [cxHandler_post_some, if_pos h]

/-- If ES validation passes, the upstream request sent is the normalized
one, whatever the upstream call returns. -/
theorem esHandler_upstreamReq {M P : Type} (cfg : ESConfig) (req : DetectIntentRequest)
    (fresh : String)
    (u : ESDetectIntentRequest → Except String (Option (ESQueryResult M P)))
    (h : ¬(req.message = "" ∨ req.agentId = "")) :
    (esDetectIntentHandler cfg "POST" (some req) fresh u).upstreamReq =
      some (esNormalize cfg req fresh) := by
  rw [esHandler_post_some, if_neg h]
  cases u (esNormalize cfg req fresh) with
  | error e => rfl
  | ok o => cases o <;> rfl

/-- If CX validation passes, the upstream request sent is the normalized
one, whatever the upstream call returns. -/
theorem cxHandler_upstreamReq (cfg : CXConfig) (req : DetectIntentRequest)
    (u : CXDetectIntentRequest → Except String (Option CXQueryResult))
    (h : ¬(req.message = "" ∨ (if req.agentId = "" then cfg.defaultAgentID else req.agentId) = ""
      ∨ req.sessionId = "")) :
    (cxDetectIntentHandler cfg "POST" (some req) u).upstreamReq =
      some (cxNormalize cfg req) := by
  rw [cxHandler_post_some, if_neg h]
  cases u (cxNormalize cfg req) with
  | error e => rfl
  | ok o => cases o <;> rfl

/-! ## Theorems -/

/-- C1: CX response-text extraction reads only the first response message:
a text-typed first message with a non-empty text list yields that list's
first entry; an empty message sequence, a non-text first message, or an
empty text list yields `""`; the messages after the first never affect the
output. -/
theorem cx_extract_first_text :
    (∀ (t : String) (ts : List String) (rest : List ResponseMessage),
        extractResponseText (ResponseMessage.text (t :: ts) :: rest) = t) ∧
    extractResponseText [] = "" ∧
    (∀ rest : List ResponseMessage,
        extractResponseText (ResponseMessage.other :: rest) = "") ∧
    (∀ rest : List ResponseMessage,
        extractResponseText (ResponseMessage.text [] :: rest) = "") ∧
    (∀ (m : ResponseMessage) (r r' : List ResponseMessage),
        extractResponseText (m :: r) = extractResponseText (m :: r')) := by
  refine ⟨fun t ts rest => rfl, rfl, fun rest => rfl, fun rest => rfl,
    fun m r r' => ?_⟩
  cases m with
  | text texts => cases texts <;> rfl
  | other => rfl

/-- C2: whenever a validated request reaches the upstream call, the session
path is `projects/{project}/locations/{location}/agent/sessions/{session}`
in the ES variant (no agent segment) and
`projects/{project}/locations/{location}/agents/{agent}/sessions/{session}`
in the CX variant (agent segment included), with exactly these segments in
this order. -/
theorem session_paths_by_variant {M P : Type} (escfg : ESConfig) (cxcfg : CXConfig)
    (req : DetectIntentRequest) (fresh : String)
    (uES : ESDetectIntentRequest → Except String (Option (ESQueryResult M P)))
    (uCX : CXDetectIntentRequest → Except String (Option CXQueryResult)) :
    (∀ r, (esDetectIntentHandler escfg "POST" (some req) fresh uES).upstreamReq = some r →
        r.session = "projects/" ++ escfg.projectID ++ "/locations/" ++ escfg.locationID
          ++ "/agent/sessions/" ++ (if req.sessionId = "" then fresh else req.sessionId)) ∧
    (∀ r, (cxDetectIntentHandler cxcfg "POST" (some req) uCX).upstreamReq = some r →
        r.session = "projects/" ++ cxcfg.projectID ++ "/locations/" ++ cxcfg.locationID
          ++ "/agents/" ++ (if req.agentId = "" then cxcfg.defaultAgentID else req.agentId)
          ++ "/sessions/" ++ req.sessionId) := by
  constructor
  · intro r hr
    by_cases hval : req.message = "" ∨ req.agentId = ""
    · rw [esHandler_reject escfg req fresh uES hval] at hr
      exact absurd hr (by simp)
    · rw [esHandler_upstreamReq escfg req fresh uES hval] at hr
      cases hr
      rfl
  · intro r hr
    by_cases hval : req.message = "" ∨
        (if req.agentId = "" then cxcfg.defaultAgentID else req.agentId) = ""
        ∨ req.sessionId = ""
    · rw [cxHandler_reject cxcfg req uCX hval] at hr
      exact absurd hr (by simp)
    · rw [cxHandler_upstreamReq cxcfg req uCX hval] at hr
      cases hr
      rfl

/-- Witness for C2: on a valid ES request with empty session id and fresh
uuid `"fresh1"`, the upstream session path instantiates the ES template. -/
theorem session_paths_by_variant_witness :
    (esNormalize cfgE reqNoSession "fresh1").session =
      "projects/" ++ cfgE.projectID ++ "/locations/" ++ cfgE.locationID
        ++ "/agent/sessions/"
        ++ (if reqNoSession.sessionId = "" then "fresh1" else reqNoSession.sessionId) :=
  (session_paths_by_variant cfgE cfgC reqNoSession "fresh1" uESerr uCXerr).1
    (esNormalize cfgE reqNoSession "fresh1") rfl

/-- C3: on every upstream query result the response construction succeeds
with HTTP 200 — the extractor never fails; an empty response-messages
sequence (CX) degrades to output text `""`, an absent intent (ES) degrades
to intent name `""`. -/
theorem extract_total_on_results {M P : Type} (escfg : ESConfig) (cxcfg : CXConfig)
    (req : DetectIntentRequest) (fresh : String)
    (esqr : ESQueryResult M P) (cxqr : CXQueryResult)
    (hm : req.message ≠ "") (ha : req.agentId ≠ "") (hs : req.sessionId ≠ "") :
    (cxDetectIntentHandler cxcfg "POST" (some req) (fun _ => Except.ok (some cxqr))).status
      = 200 ∧
    (cxDetectIntentHandler cxcfg "POST" (some req) (fun _ => Except.ok (some cxqr))).body
      = some ⟨extractResponseText cxqr.responseMessages, req.sessionId⟩ ∧
    (cxqr.responseMessages = [] → extractResponseText cxqr.responseMessages = "") ∧
    (esDetectIntentHandler escfg "POST" (some req) fresh
        (fun _ => Except.ok (some esqr))).status = 200 ∧
    (esDetectIntentHandler escfg "POST" (some req) fresh
        (fun _ => Except.ok (some esqr))).body
      = some ⟨esqr.fulfillmentText, esqr.fulfillmentMessages,
              (esqr.intent.map ESIntent.displayName).getD "",
              esqr.parameters, req.sessionId⟩ ∧
    (esqr.intent = none → (esqr.intent.map ESIntent.displayName).getD "" = "") := by
  have hvalcx : ¬(req.message = "" ∨
      (if req.agentId = "" then cxcfg.defaultAgentID else req.agentId) = ""
      ∨ req.sessionId = "") := by
    rw [if_neg ha]
    push_neg
    exact ⟨hm, ha, hs⟩
  have hvales : ¬(req.message = "" ∨ req.agentId = "") := by
    push_neg
    exact ⟨hm, ha⟩
  have hcx := cxHandler_post_some cxcfg req (fun _ => Except.ok (some cxqr))
  rw [if_neg hvalcx] at hcx
  have hes := esHandler_post_some escfg req fresh (fun _ => Except.ok (some esqr))
  rw [if_neg hvales, if_neg hs] at hes
  refine ⟨by rw [hcx], by rw [hcx], fun h => by rw [h]; rfl,
    by rw [hes], by rw [hes], fun h => by rw [h]; rfl⟩

/-- Witness for C3: the CX handler on `reqFull` with upstream result
`qrHello` answers 200. -/
theorem extract_total_on_results_witness :
    (cxDetectIntentHandler cfgC "POST" (some reqFull)
        (fun _ => Except.ok (some qrHello))).status = 200 :=
  (extract_total_on_results cfgE cfgC reqFull "f1" esqrEx qrHello
    (by decide) (by decide) (by decide)).1

/-- C4: when the decoded session id is empty (other fields valid), the ES
variant proceeds to the upstream call using the freshly generated uuid in
the session path, while the CX variant answers 400 and makes no upstream
call. -/
theorem empty_session_policy {M P : Type} (escfg : ESConfig) (cxcfg : CXConfig)
    (req : DetectIntentRequest) (fresh : String)
    (uES : ESDetectIntentRequest → Except String (Option (ESQueryResult M P)))
    (uCX : CXDetectIntentRequest → Except String (Option CXQueryResult))
    (hsess : req.sessionId = "") (hm : req.message ≠ "") (ha : req.agentId ≠ "") :
    (esDetectIntentHandler escfg "POST" (some req) fresh uES).upstreamReq =
      some (esNormalize escfg req fresh) ∧
    (esNormalize escfg req fresh).session = esSessionPath escfg fresh ∧
    (cxDetectIntentHandler cxcfg "POST" (some req) uCX).status = 400 ∧
    (cxDetectIntentHandler cxcfg "POST" (some req) uCX).upstreamReq = none := by
  have hvales : ¬(req.message = "" ∨ req.agentId = "") := by
    push_neg
    exact ⟨hm, ha⟩
  have hcx := cxHandler_reject cxcfg req uCX (Or.inr (Or.inr hsess))
  refine ⟨esHandler_upstreamReq escfg req fresh uES hvales, ?_, by rw [hcx], by rw [hcx]⟩
  simp [esNormalize, hsess]

/-- Witness for C4: with `reqNoSession` and fresh uuid `"fresh1"`, the ES
handler sends the normalized upstream request. -/
theorem empty_session_policy_witness :
    (esDetectIntentHandler cfgE "POST" (some reqNoSession) "fresh1" uESerr).upstreamReq =
      some (esNormalize cfgE reqNoSession "fresh1") :=
  (empty_session_policy cfgE cfgC reqNoSession "fresh1" uESerr uCXerr
    rfl (by decide) (by decide)).1

/-- C5: the ES variant rejects a POST whose decoded message or agent id is
empty with 400 and no upstream call, even though the agent id never enters
the constructed upstream request. -/
theorem es_validation_rejects {M P : Type} (escfg : ESConfig)
    (req : DetectIntentRequest) (fresh : String)
    (uES : ESDetectIntentRequest → Except String (Option (ESQueryResult M P)))
    (h : req.message = "" ∨ req.agentId = "") :
    (esDetectIntentHandler escfg "POST" (some req) fresh uES).status = 400 ∧
    (esDetectIntentHandler escfg "POST" (some req) fresh uES).upstreamReq = none ∧
    (∀ a1 a2 : String,
        esNormalize escfg ⟨req.message, a1, req.sessionId, req.languageCode⟩ fresh =
        esNormalize escfg ⟨req.message, a2, req.sessionId, req.languageCode⟩ fresh) := by
  have hes := esHandler_reject escfg req fresh uES h
  exact ⟨by rw [hes], by rw [hes], fun a1 a2 => rfl⟩

/-- Witness for C5: decoding the body `{"message":""}` and handling it in
the ES variant yields HTTP 400. -/
theorem es_validation_rejects_witness :
    (esDetectIntentHandler cfgE "POST" (some (decodeRequest jMsgOnly)) "f1" uESerr).status
      = 400 :=
  (es_validation_rejects cfgE (decodeRequest jMsgOnly) "f1" uESerr (Or.inl rfl)).1

/-- C6: in the CX variant an empty agent id is substituted with the
configured default; with a non-empty default the upstream request uses the
default agent id in its session path, and with an empty default the request
fails with 400 and no upstream call. -/
theorem cx_agent_default_substitution (cxcfg : CXConfig) (req : DetectIntentRequest)
    (uCX : CXDetectIntentRequest → Except String (Option CXQueryResult))
    (ha : req.agentId = "") (hm : req.message ≠ "") (hs : req.sessionId ≠ "") :
    (cxcfg.defaultAgentID ≠ "" →
        (cxDetectIntentHandler cxcfg "POST" (some req) uCX).upstreamReq =
          some (cxNormalize cxcfg req) ∧
        (cxNormalize cxcfg req).session =
          cxSessionPath cxcfg cxcfg.defaultAgentID req.sessionId) ∧
    (cxcfg.defaultAgentID = "" →
        (cxDetectIntentHandler cxcfg "POST" (some req) uCX).status = 400 ∧
        (cxDetectIntentHandler cxcfg "POST" (some req) uCX).upstreamReq = none) := by
  constructor
  · intro hd
    have hval : ¬(req.message = "" ∨
        (if req.agentId = "" then cxcfg.defaultAgentID else req.agentId) = ""
        ∨ req.sessionId = "") := by
      rw [if_pos ha]
      push_neg
      exact ⟨hm, hd, hs⟩
    refine ⟨cxHandler_upstreamReq cxcfg req uCX hval, ?_⟩
    simp [cxNormalize, ha]
  · intro hd
    have hcx := cxHandler_reject cxcfg req uCX (Or.inr (Or.inl (by rw [if_pos ha]; exact hd)))
    exact ⟨by rw [hcx], by rw [hcx]⟩

/-- Witness for C6: `reqNoAgent` against `cfgC` (default agent `"agdef"`)
reaches the upstream call with the normalized request. -/
theorem cx_agent_default_substitution_witness :
    (cxDetectIntentHandler cfgC "POST" (some reqNoAgent) uCXerr).upstreamReq =
      some (cxNormalize cfgC reqNoAgent) :=
  ((cx_agent_default_substitution cfgC reqNoAgent uCXerr
    rfl (by decide) (by decide)).1 (by decide)).1

/-- C7: on fully specified input the normalizer is deterministic: the ES
result does not depend on the generated uuid, so two runs with different
random draws agree on resource path, message text and language code; the CX
normalizer takes no random input and its components are fixed by the
request alike. -/
theorem normalizer_deterministic (escfg : ESConfig) (cxcfg : CXConfig)
    (req : DetectIntentRequest) (f1 f2 : String)
    (hm : req.message ≠ "") (ha : req.agentId ≠ "") (hs : req.sessionId ≠ "")
    (hl : req.languageCode ≠ "") :
    esNormalize escfg req f1 = esNormalize escfg req f2 ∧
    (esNormalize escfg req f1).session = esSessionPath escfg req.sessionId ∧
    (esNormalize escfg req f1).queryInput.text = req.message ∧
    (esNormalize escfg req f1).queryInput.languageCode = req.languageCode ∧
    (cxNormalize cxcfg req).session = cxSessionPath cxcfg req.agentId req.sessionId ∧
    (cxNormalize cxcfg req).queryInput.input.text = req.message ∧
    (cxNormalize cxcfg req).queryInput.languageCode = req.languageCode := by
  refine ⟨?_, ?_, rfl, ?_, ?_, rfl, ?_⟩ <;>
    simp [esNormalize, cxNormalize, hs, hl, ha]

/-- Witness for C7: normalizing `reqFull` with two different uuid draws
yields the same upstream request. -/
theorem normalizer_deterministic_witness :
    esNormalize cfgE reqFull "f1" = esNormalize cfgE reqFull "f2" :=
  (normalizer_deterministic cfgE cfgC reqFull "f1" "f2"
    (by decide) (by decide) (by decide) (by decide)).1

/-- C8: every 200 response body echoes exactly the session id used in the
upstream session path: the client-supplied one when non-empty, the
generated uuid otherwise (ES). -/
theorem response_echoes_session {M P : Type} (escfg : ESConfig) (cxcfg : CXConfig)
    (req : DetectIntentRequest) (fresh : String)
    (uES : ESDetectIntentRequest → Except String (Option (ESQueryResult M P)))
    (uCX : CXDetectIntentRequest → Except String (Option CXQueryResult)) :
    (∀ b, (esDetectIntentHandler escfg "POST" (some req) fresh uES).status = 200 →
        (esDetectIntentHandler escfg "POST" (some req) fresh uES).body = some b →
        b.sessionId = (if req.sessionId = "" then fresh else req.sessionId) ∧
        (esDetectIntentHandler escfg "POST" (some req) fresh uES).upstreamReq =
          some (esNormalize escfg req fresh) ∧
        (esNormalize escfg req fresh).session = esSessionPath escfg b.sessionId) ∧
    (∀ b, (cxDetectIntentHandler cxcfg "POST" (some req) uCX).status = 200 →
        (cxDetectIntentHandler cxcfg "POST" (some req) uCX).body = some b →
        b.sessionId = req.sessionId ∧
        (cxDetectIntentHandler cxcfg "POST" (some req) uCX).upstreamReq =
          some (cxNormalize cxcfg req) ∧
        (cxNormalize cxcfg req).session =
          cxSessionPath cxcfg (if req.agentId = "" then cxcfg.defaultAgentID else req.agentId)
            b.sessionId) := by
  constructor
  · intro b hst hb
    by_cases hval : req.message = "" ∨ req.agentId = ""
    · rw [esHandler_reject escfg req fresh uES hval] at hst
      exact absurd hst (by simp)
    · have hes := esHandler_post_some escfg req fresh uES
      rw [if_neg hval] at hes
      rw [hes] at hst hb
      rw [esHandler_upstreamReq escfg req fresh uES hval]
      cases hu : uES (esNormalize escfg req fresh) with
      | error e => rw [hu] at hst; exact absurd hst (by simp)
      | ok o =>
        cases o with
        | none => rw [hu] at hst; exact absurd hst (by simp)
        | some result =>
          rw [hu] at hb
          cases hb
          exact ⟨rfl, rfl, rfl⟩
  · intro b hst hb
    by_cases hval : req.message = "" ∨
        (if req.agentId = "" then cxcfg.defaultAgentID else req.agentId) = ""
        ∨ req.sessionId = ""
    · rw [cxHandler_reject cxcfg req uCX hval] at hst
      exact absurd hst (by simp)
    · have hcx := cxHandler_post_some cxcfg req uCX
      rw [if_neg hval] at hcx
      rw [hcx] at hst hb
      rw [cxHandler_upstreamReq cxcfg req uCX hval]
      cases hu : uCX (cxNormalize cxcfg req) with
      | error e => rw [hu] at hst; exact absurd hst (by simp)
      | ok o =>
        cases o with
        | none => rw [hu] at hst; exact absurd hst (by simp)
        | some queryResult =>
          rw [hu] at hb
          cases hb
          exact ⟨rfl, rfl, rfl⟩

/-- Witness for C8: the CX handler on `reqFull` with upstream `uCXok`
answers 200 with body session id `"sess"`, the session id of the request
sent upstream. -/
theorem response_echoes_session_witness :
    (⟨"Hello!", "sess"⟩ : CXApiResponse).sessionId = reqFull.sessionId :=
  ((response_echoes_session cfgE cfgC reqFull "f1" uESok uCXok).2
    ⟨"Hello!", "sess"⟩ rfl rfl).1

/-- C9: the health-check handler answers 200 with body `"OK"` for every
request, whatever its method — it performs no method check, so POST, PUT
and DELETE receive the same answer as GET. -/
theorem healthz_all_methods :
    (∀ r : HttpRequest, healthCheckHandler r = (200, "OK")) ∧
    (∀ m p m' p' : String, healthCheckHandler ⟨m, p⟩ = healthCheckHandler ⟨m', p'⟩) ∧
    healthCheckHandler ⟨"GET", "/healthz"⟩ = (200, "OK") ∧
    healthCheckHandler ⟨"POST", "/healthz"⟩ = (200, "OK") ∧
    healthCheckHandler ⟨"PUT", "/healthz"⟩ = (200, "OK") ∧
    healthCheckHandler ⟨"DELETE", "/healthz"⟩ = (200, "OK") :=
  ⟨fun _ => rfl, fun _ _ _ _ => rfl, rfl, rfl, rfl, rfl⟩

/-- C10: an explicit `"sessionId":""` decodes to the same request as an
absent `sessionId`; on such a request the ES variant generates a fresh id
(so any 200 body carries the non-empty generated id, not the empty client
string) and the CX variant answers 400 either way. -/
theorem empty_session_indistinguishable {M P : Type} (escfg : ESConfig) (cxcfg : CXConfig)
    (j : JsonRequest) (fresh : String)
    (uES : ESDetectIntentRequest → Except String (Option (ESQueryResult M P)))
    (uCX : CXDetectIntentRequest → Except String (Option CXQueryResult))
    (hfresh : fresh ≠ "") :
    decodeRequest (j.withSession (some "")) = decodeRequest (j.withSession none) ∧
    (∀ b, (esDetectIntentHandler escfg "POST"
            (some (decodeRequest (j.withSession (some "")))) fresh uES).body = some b →
        b.sessionId = fresh ∧ b.sessionId ≠ "") ∧
    (cxDetectIntentHandler cxcfg "POST"
        (some (decodeRequest (j.withSession (some "")))) uCX).status = 400 ∧
    (cxDetectIntentHandler cxcfg "POST"
        (some (decodeRequest (j.withSession none))) uCX).status = 400 := by
  refine ⟨rfl, ?_, ?_, ?_⟩
  · intro b hb
    set req := decodeRequest (j.withSession (some "")) with hreq
    have hsess : req.sessionId = "" := rfl
    by_cases hval : req.message = "" ∨ req.agentId = ""
    · rw [esHandler_reject escfg req fresh uES hval] at hb
      exact absurd hb (by simp)
    · have hes := esHandler_post_some escfg req fresh uES
      rw [if_neg hval] at hes
      rw [hes] at hb
      cases hu : uES (esNormalize escfg req fresh) with
      | error e => rw [hu] at hb; exact absurd hb (by simp)
      | ok o =>
        cases o with
        | none => rw [hu] at hb; exact absurd hb (by simp)
        | some result =>
          rw [hu] at hb
          cases hb
          rw [if_pos hsess]
          exact ⟨rfl, hfresh⟩
  · have hsess : (decodeRequest (j.withSession (some ""))).sessionId = "" := rfl
    rw [cxHandler_reject cxcfg _ uCX (Or.inr (Or.inr hsess))]
  · have hsess : (decodeRequest (j.withSession none)).sessionId = "" := rfl
    rw [cxHandler_reject cxcfg _ uCX (Or.inr (Or.inr hsess))]

/-- Witness for C10: with the JSON body `jGood` carrying `"sessionId":""`,
the CX handler answers 400. -/
theorem empty_session_indistinguishable_witness :
    (cxDetectIntentHandler cfgC "POST"
        (some (decodeRequest (jGood.withSession (some "")))) uCXok).status = 400 :=
  (empty_session_indistinguishable cfgE cfgC jGood "fresh1" uESok uCXok
    (by decide)).2.2.1

end Picolo
